import Mathlib

/-!
Verification of the pink barrier demo (`examples/barriers/arm_ur5.py`) and the
barrier unit tests (`tests/test_barrier.py`).

The repository's visible source consists of two caller-side files; the barrier
library itself (`pink.barriers.PositionBarrier`, `pink.Configuration`,
`pink.solve_ik`) is part of the repository but not among the visible files, so
its data model is modelled from the specification, as marked on each
definition.  The demo script is embedded directly from its source.

Vectors are lists of rationals and matrices are lists of row vectors; the
floating-point numerics of the external kinematics library are out of scope
(the claims under verification concern shapes, zero-ness and control flow,
none of which depend on rounding).
-/

namespace Pink

/-- Vector of `n` zeros. -/
def zeroVec (n : Nat) : List ℚ :=
  List.replicate n 0

/-- Scalar multiple of a vector. -/
def smulVec (a : ℚ) (v : List ℚ) : List ℚ :=
  v.map (fun x => a * x)

/-- Scalar multiple of a matrix (row list). -/
def smulMat (a : ℚ) (M : List (List ℚ)) : List (List ℚ) :=
  M.map (smulVec a)

/-- Identity matrix of size `n`. -/
def idMat (n : Nat) : List (List ℚ) :=
  (List.range n).map (fun i => (List.range n).map (fun j => if i = j then (1 : ℚ) else 0))

/-- Transpose-matrix–vector product: given a matrix `J` with rows of length
`nv` and a vector `v` with one entry per row of `J`, computes `Jᵀ v`, a vector
of length `nv`. -/
def matTVecMul (nv : Nat) (J : List (List ℚ)) (v : List ℚ) : List ℚ :=
  (List.range nv).map (fun j => ((J.zip v).map (fun p => p.1.getD j 0 * p.2)).sum)

/-- A vector is all-zero. -/
def isZeroVec (v : List ℚ) : Prop :=
  ∀ x ∈ v, x = 0

/-- A matrix is all-zero. -/
def isZeroMat (M : List (List ℚ)) : Prop :=
  ∀ row ∈ M, isZeroVec row

instance (v : List ℚ) : Decidable (isZeroVec v) :=
  List.decidableBAll _ v

instance (M : List (List ℚ)) : Decidable (isZeroMat M) :=
  List.decidableBAll _ M

/-- Matrix shape predicate: `m` rows, each of length `n`. -/
def matShape (M : List (List ℚ)) (m n : Nat) : Prop :=
  M.length = m ∧ ∀ row ∈ M, row.length = n

instance (M : List (List ℚ)) (m n : Nat) : Decidable (matShape M m n) :=
  instDecidableAnd

/-- Modelled from the spec: the rigid-body model loader and forward kinematics
are external black boxes ("Robot model loader: given a model identifier,
returns a kinematic model and a mutable data/configuration object; treated as
a black box").  A model exposes its velocity-space dimension `nv`, its
configuration-space dimension `nq`, and for each named frame a position
3-vector and a position Jacobian with `nv` columns, both functions of the
configuration vector. -/
structure RobotModel where
  nv : Nat
  nq : Nat
  framePos : String → List ℚ → List ℚ
  frameJacobian : String → List ℚ → List (List ℚ)

/-- Modelled from the spec: "Robot configuration: a vector of joint
coordinates plus cached forward-kinematics results". -/
structure Configuration where
  model : RobotModel
  q : List ℚ

/-- The zeroed configuration of a model (the tests build
`Configuration(model, data, q=np.zeros(nq))`). -/
def zeroConf (m : RobotModel) : Configuration :=
  ⟨m, zeroVec m.nq⟩

/-- Modelled from the spec: "Barrier constraint: bounds (scalar or vector
limits), a gain, and an optional safety radius".  A position barrier bounds
selected components of a frame's position from below (`p_min`) and/or above
(`p_max`); `indices` selects the bounded components, `safety_policy` is the
displayed name of the internal safe-policy object, `r` is the safety
radius. -/
structure PositionBarrier where
  frame : String
  indices : List Nat
  p_min : Option (List ℚ)
  p_max : Option (List ℚ)
  gain : ℚ
  safety_policy : String
  r : ℚ

/-- Number of scalar constraints contributed by one optional bound. -/
def boundDim (indices : List Nat) : Option (List ℚ) → Nat
  | some b => min indices.length b.length
  | none => 0

/-- Modelled from the spec: the constraint's own output dimension ("the
number of bounded joints"): one scalar constraint per bounded component of
each present bound. -/
def PositionBarrier.dim (b : PositionBarrier) : Nat :=
  boundDim b.indices b.p_min + boundDim b.indices b.p_max

/-- Modelled from the spec: the barrier value vector, of length `dim`
("barrier value vector has length `constraint.dim`"); non-negativity of each
entry encodes the corresponding bound (glossary: "a scalar or vector function
of configuration whose non-negativity encodes a safety constraint"). -/
def PositionBarrier.compute_barrier (b : PositionBarrier) (conf : Configuration) : List ℚ :=
  (match b.p_min with
   | some lo => (b.indices.zip lo).map
       (fun il => (conf.model.framePos b.frame conf.q).getD il.1 0 - il.2)
   | none => [])
  ++
  (match b.p_max with
   | some hi => (b.indices.zip hi).map
       (fun ih => ih.2 - (conf.model.framePos b.frame conf.q).getD ih.1 0)
   | none => [])

/-- Modelled from the spec: the barrier Jacobian, of shape
`(constraint.dim, nv)`: the selected rows of the frame's position Jacobian,
negated for upper bounds. -/
def PositionBarrier.compute_jacobian (b : PositionBarrier) (conf : Configuration) : List (List ℚ) :=
  (match b.p_min with
   | some lo => (b.indices.zip lo).map
       (fun il => (conf.model.frameJacobian b.frame conf.q).getD il.1 (zeroVec conf.model.nv))
   | none => [])
  ++
  (match b.p_max with
   | some hi => (b.indices.zip hi).map
       (fun ih => smulVec (-1) ((conf.model.frameJacobian b.frame conf.q).getD ih.1 (zeroVec conf.model.nv)))
   | none => [])

/-- Modelled from the spec: "the constraint's internal safe-policy output" is
opaque in the visible source; modelled as the Jacobian-transpose pullback of
the barrier values, a velocity-space vector of length `nv`. -/
def PositionBarrier.compute_safe_policy (b : PositionBarrier) (conf : Configuration) : List ℚ :=
  matTVecMul conf.model.nv (b.compute_jacobian conf) (b.compute_barrier conf)

/-- Modelled from the spec: the barrier's QP objective contribution `(H, c)`
with `H` square of size `nv` and `c` of length `nv`, scaled by the safety
radius so that `r = 0` makes both exactly zero and a positive radius makes
them generally nonzero, with `c` steering toward the internal safe policy
("a zero safety radius forces the quadratic-program objective contribution to
be exactly zero, while a positive radius makes it generally nonzero"). -/
def PositionBarrier.compute_qp_objective (b : PositionBarrier) (conf : Configuration) :
    List (List ℚ) × List ℚ :=
  (smulMat b.r (idMat conf.model.nv), smulVec (-b.r) (b.compute_safe_policy conf))

/-- Modelled from the spec: the barrier's QP inequality contribution `(G, h)`
with `G` of shape `(dim, nv)` and `h` of length `dim`: the negated barrier
Jacobian against the gain-scaled barrier values (glossary: barriers "shape a
quadratic program's feasible region"). -/
def PositionBarrier.compute_qp_inequality (b : PositionBarrier) (conf : Configuration)
    (_dt : ℚ) : List (List ℚ) × List ℚ :=
  (smulMat (-1) (b.compute_jacobian conf), smulVec b.gain (b.compute_barrier conf))

/-- Modelled from the spec: the constraint's displayable representation
"contains its gain, safety-policy, and radius values as substrings", with the
literal key substrings `gain=`, `safety_policy=` and `r=`.  Kept as a
character list, concatenated piecewise. -/
def PositionBarrier.reprData (b : PositionBarrier) : List Char :=
  "PositionBarrier(frame=".data ++ b.frame.data
  ++ ", ".data ++ "gain=".data ++ (toString b.gain).data
  ++ ", ".data ++ "safety_policy=".data ++ b.safety_policy.data
  ++ ", ".data ++ "r=".data ++ (toString b.r).data
  ++ ")".data

/-- The barrier the tests construct: `PositionBarrier("left_hip",
p_min=np.zeros(3))`, with safety radius `r` as given and the remaining
parameters at their defaults. -/
def left_hip_pmin (r : ℚ) : PositionBarrier :=
  { frame := "left_hip", indices := [0, 1, 2], p_min := some [0, 0, 0],
    p_max := none, gain := 1, safety_policy := "DefaultPolicy", r := r }

/-- Character-list test: does the second list start with the first? -/
def strStartsWith : List Char → List Char → Bool
  | [], _ => true
  | _ :: _, [] => false
  | p :: ps, c :: cs => decide (p = c) && strStartsWith ps cs

/-- Character-list substring test: does `pat` occur contiguously in the
second list? -/
def strHasSub (pat : List Char) : List Char → Bool
  | [] => strStartsWith pat []
  | c :: cs => strStartsWith pat (c :: cs) || strHasSub pat cs

/-! ## Embedding of the demo script `examples/barriers/arm_ur5.py`

The script is in the visible source and is embedded directly.  External
collaborators (the IK solver, velocity integration, `np.sin`, the
visualization client) are opaque per the spec and appear as fields of
`DemoEnv`; the loop's externally visible actions are recorded as a per-
iteration event trace.  The script's `print` statements (stdout only, no
state effect) and the unused `G, h` recomputation at line 105 are omitted
from the state. -/

/-- A task passed to `solve_ik`.  `FrameTask` holds the mutable target
translation that the loop rewrites each iteration (lines 84-86);
`PostureTask` holds only its cost. -/
inductive Task where
  | frameTask (frame : String) (position_cost orientation_cost lm_damping : ℚ)
      (targetTranslation : List ℚ)
  | postureTask (cost : ℚ)

/-- A control-barrier constraint passed to `solve_ik`: either the demo's
`PositionBarrier` or its `ConfigurationBarrier` (whose internals are opaque;
only its constructor arguments `gain` and `r` are visible). -/
inductive Cbf where
  | position (b : PositionBarrier)
  | configurationB (gain r : ℚ)

/-- The demo's position barrier (lines 43-49): frame `ee_link`,
`indices=[1]`, `max=[0.6]`, `gain=[100.0]`, `r=1.0`. -/
def demo_pos_cbf : PositionBarrier :=
  { frame := "ee_link", indices := [1], p_min := none, p_max := some [3/5],
    gain := 100, safety_policy := "DefaultPolicy", r := 1 }

/-- The demo's configuration barrier (line 50): `gain=1, r=100.0`. -/
def configuration_cbf : Cbf :=
  Cbf.configurationB 1 100

/-- The demo's constraint list (line 51). -/
def cbf_list : List Cbf :=
  [Cbf.position demo_pos_cbf, configuration_cbf]

/-- The demo's task list (lines 32-41, 53) as seen by `solve_ik` when the
end-effector target translation is `tr`: the frame task on `ee_link` with
`position_cost=50.0`, `orientation_cost=1.0`, `lm_damping=100`, and the
posture task with `cost=1e-3`. -/
def tasksWith (tr : List ℚ) : List Task :=
  [Task.frameTask "ee_link" 50 1 100 tr, Task.postureTask (1/1000)]

/-- The demo's reference posture (lines 55-64). -/
def q_ref : List ℚ :=
  [127153374/100000000, -87988708/100000000, 189104795/100000000,
   173996951/100000000, -24610945/100000000, -74979019/100000000]

/-- Opaque external collaborators of the demo loop. -/
structure DemoEnv where
  solve_ik : List ℚ → List Task → ℚ → String → List Cbf → Bool → List ℚ
  integrate : List ℚ → List ℚ → ℚ → List ℚ
  sin : ℚ → ℚ

/-- Observable per-iteration actions of the loop, in program order. -/
inductive DemoEvent where
  | setTargetTransform (translation : List ℚ)
  | setFrameTransform
  | solveIkCall (q : List ℚ) (taskList : List Task) (dt : ℚ) (solver : String)
      (cbfs : List Cbf) (use_position_limit : Bool)
  | integrateCall (velocity : List ℚ) (dt : ℚ)
  | display (q : List ℚ)
  | sleep

/-- Loop state: the end-effector target translation (owned by the frame
task), the configuration vector, and elapsed time `t`. -/
structure LoopState where
  target : List ℚ
  q : List ℚ
  t : ℚ

/-- Lines 84-86: the target translation recomputed from elapsed time,
component 1 set to `0.0 + 0.7 * sin(t / 2)` and component 2 set to `0.2`. -/
def updatedTarget (env : DemoEnv) (s : LoopState) : List ℚ :=
  (s.target.set 1 (0 + (7/10) * env.sin (s.t / 2))).set 2 (2/10)

/-- One iteration of the `while True` body (lines 82-114): update the target,
redraw the two visualization frames, call `solve_ik(configuration, tasks, dt,
solver=solver, cbfs=cbf_list, use_position_limit=False)`, integrate the
returned velocity into the configuration, display, sleep, advance `t`. -/
def loopBody (env : DemoEnv) (solver : String) (dt : ℚ) (s : LoopState) :
    LoopState × List DemoEvent :=
  ({ target := updatedTarget env s,
     q := env.integrate s.q (env.solve_ik s.q (tasksWith (updatedTarget env s)) dt solver cbf_list false) dt,
     t := s.t + dt },
   [DemoEvent.setTargetTransform (updatedTarget env s),
    DemoEvent.setFrameTransform,
    DemoEvent.solveIkCall s.q (tasksWith (updatedTarget env s)) dt solver cbf_list false,
    DemoEvent.integrateCall (env.solve_ik s.q (tasksWith (updatedTarget env s)) dt solver cbf_list false) dt,
    DemoEvent.display (env.integrate s.q (env.solve_ik s.q (tasksWith (updatedTarget env s)) dt solver cbf_list false) dt),
    DemoEvent.sleep])

/-- State after `n` completed iterations of the loop from start state `s0`. -/
def runDemo (env : DemoEnv) (solver : String) (dt : ℚ) (s0 : LoopState) : Nat → LoopState
  | 0 => s0
  | n + 1 => (loopBody env solver dt (runDemo env solver dt s0 n)).1

/-- Event trace of iteration `n` (0-based). -/
def traceAt (env : DemoEnv) (solver : String) (dt : ℚ) (s0 : LoopState) (n : Nat) :
    List DemoEvent :=
  (loopBody env solver dt (runDemo env solver dt s0 n)).2

/-- The solver identifiers of the `solve_ik` calls in a trace. -/
def solversOfCalls (evts : List DemoEvent) : List String :=
  evts.filterMap (fun e => match e with
    | DemoEvent.solveIkCall _ _ _ sv _ _ => some sv
    | _ => none)

/-- The `use_position_limit` flags of the `solve_ik` calls in a trace. -/
def limitFlagsOfCalls (evts : List DemoEvent) : List Bool :=
  evts.filterMap (fun e => match e with
    | DemoEvent.solveIkCall _ _ _ _ _ u => some u
    | _ => none)

/-- The constraint lists of the `solve_ik` calls in a trace. -/
def cbfsOfCalls (evts : List DemoEvent) : List (List Cbf) :=
  evts.filterMap (fun e => match e with
    | DemoEvent.solveIkCall _ _ _ _ cb _ => some cb
    | _ => none)

/-- Lines 74-77: `solver = qpsolvers.available_solvers[0]`, then replaced by
`"osqp"` when available.  An empty availability list makes the subscript
fail, hence `Option`. -/
def selectSolver (available : List String) : Option String :=
  match available.head? with
  | none => none
  | some s0 => some (if "osqp" ∈ available then "osqp" else s0)

/-- A Python exception: its type name and message. -/
structure PyError where
  kind : String
  message : String

/-- An exception as raised, together with its `__cause__` chain link
(`raise ... from exc`). -/
structure RaisedError where
  error : PyError
  cause : Option PyError

/-- The replacement message of the import guard (lines 23-24; the two
adjacent Python string literals concatenate). -/
def importHintMessage : String :=
  "Examples need robot_descriptions, try ``pip install robot_descriptions``"

/-- Lines 20-25: importing the robot-description loader either succeeds or
raises; a `ModuleNotFoundError` is caught and re-raised as a new
`ModuleNotFoundError` carrying the installation hint, chained from the
original; any other exception propagates unchained. -/
def importGuard (result : Except PyError Unit) : Except RaisedError Unit :=
  match result with
  | Except.ok _ => Except.ok ()
  | Except.error e =>
      if e.kind = "ModuleNotFoundError" then
        Except.error ⟨⟨"ModuleNotFoundError", importHintMessage⟩, some e⟩
      else
        Except.error ⟨e, none⟩

/-! ## Shape lemmas for the barrier model -/

lemma length_smulVec (a : ℚ) (v : List ℚ) : (smulVec a v).length = v.length := by
  simp [smulVec]

lemma length_idMat (n : Nat) : (idMat n).length = n := by
  simp [idMat]

lemma matShape_idMat (n : Nat) : matShape (idMat n) n n := by
  refine ⟨length_idMat n, ?_⟩
  intro row hrow
  simp only [idMat, List.mem_map] at hrow
  obtain ⟨i, _, rfl⟩ := hrow
  simp

lemma matShape_smulMat (a : ℚ) (M : List (List ℚ)) (m n : Nat)
    (h : matShape M m n) : matShape (smulMat a M) m n := by
  obtain ⟨h1, h2⟩ := h
  refine ⟨by simp [smulMat, h1], ?_⟩
  intro row hrow
  simp only [smulMat, List.mem_map] at hrow
  obtain ⟨s, hs, rfl⟩ := hrow
  rw [length_smulVec]
  exact h2 s hs

lemma length_matTVecMul (nv : Nat) (J : List (List ℚ)) (v : List ℚ) :
    (matTVecMul nv J v).length = nv := by
  simp [matTVecMul]

lemma getD_row_length {n : Nat} :
    ∀ (J : List (List ℚ)) (i : Nat) (d : List ℚ),
      (∀ s ∈ J, s.length = n) → d.length = n → (J.getD i d).length = n
  | [], _, d, _, hd => by simpa [List.getD] using hd
  | s :: J, 0, d, hJ, _ => by simpa using hJ s (by simp)
  | _ :: J, i + 1, d, hJ, hd => by
      simpa using getD_row_length J i d (fun x hx => hJ x (by simp [hx])) hd

lemma length_compute_barrier (b : PositionBarrier) (conf : Configuration) :
    (b.compute_barrier conf).length = b.dim := by
  obtain ⟨frame, indices, pmin, pmax, gain, sp, r⟩ := b
  rcases pmin with _ | lo <;> rcases pmax with _ | hi <;>
    simp [PositionBarrier.compute_barrier, PositionBarrier.dim, boundDim]

lemma shape_compute_jacobian (b : PositionBarrier) (conf : Configuration)
    (hJ : ∀ s ∈ conf.model.frameJacobian b.frame conf.q, s.length = conf.model.nv) :
    matShape (b.compute_jacobian conf) b.dim conf.model.nv := by
  have hz : (zeroVec conf.model.nv).length = conf.model.nv := by simp [zeroVec]
  obtain ⟨frame, indices, pmin, pmax, gain, sp, r⟩ := b
  constructor
  · rcases pmin with _ | lo <;> rcases pmax with _ | hi <;>
      simp [PositionBarrier.compute_jacobian, PositionBarrier.dim, boundDim]
  · intro row hrow
    simp only [PositionBarrier.compute_jacobian, List.mem_append] at hrow
    rcases hrow with h | h
    · rcases pmin with _ | lo
      · simp at h
      · simp only [List.mem_map] at h
        obtain ⟨il, _, rfl⟩ := h
        exact getD_row_length _ _ _ hJ hz
    · rcases pmax with _ | hi
      · simp at h
      · simp only [List.mem_map] at h
        obtain ⟨ih, _, rfl⟩ := h
        rw [length_smulVec]
        exact getD_row_length _ _ _ hJ hz

/-! ## Substring lemmas -/

lemma strStartsWith_self_append (pat rest : List Char) :
    strStartsWith pat (pat ++ rest) = true := by
  induction pat with
  | nil => simp [strStartsWith]
  | cons p ps ih => simp [strStartsWith, ih]

lemma strHasSub_self_append (pat rest : List Char) :
    strHasSub pat (pat ++ rest) = true := by
  cases pat with
  | nil =>
      cases rest with
      | nil => rfl
      | cons c cs => simp [strHasSub, strStartsWith]
  | cons p ps =>
      have h := strStartsWith_self_append (p :: ps) rest
      simp only [List.cons_append] at h ⊢
      simp [strHasSub, h]

lemma strHasSub_append_left (pat xs ys : List Char) (h : strHasSub pat ys = true) :
    strHasSub pat (xs ++ ys) = true := by
  induction xs with
  | nil => simpa using h
  | cons x xt ih =>
      simp only [List.cons_append]
      simp [strHasSub, ih]

lemma strHasSub_mid (pat xs ys : List Char) :
    strHasSub pat (xs ++ (pat ++ ys)) = true :=
  strHasSub_append_left pat xs _ (strHasSub_self_append pat ys)

lemma strHasSub_of_eq (pat l xs ys : List Char) (h : l = xs ++ (pat ++ ys)) :
    strHasSub pat l = true :=
  h ▸ strHasSub_mid pat xs ys

/-- Concrete two-dof model used to witness the barrier claims. -/
def wModel : RobotModel :=
  { nv := 2, nq := 3,
    framePos := fun _ _ => [0, 0, 0],
    frameJacobian := fun _ _ => [[1, 0], [0, 1], [0, 0]] }

/-- C1: for `PositionBarrier("left_hip", p_min=[0,0,0])` against a model with
`nv` velocity degrees of freedom in its zeroed configuration and `dt = 1e-3`:
`compute_qp_objective` returns `(H, c)` with `H` square of size `nv × nv` and
`c` of length `nv`; `compute_qp_inequality` returns `(G, h)` with `G` of
`dim` rows and `nv` columns; `compute_barrier` has length `dim`; and
`compute_jacobian` has shape `(dim, nv)`. -/
theorem claim_C1 (m : RobotModel) (r : ℚ)
    (hJ : ∀ s ∈ m.frameJacobian "left_hip" (zeroVec m.nq), s.length = m.nv) :
    matShape ((left_hip_pmin r).compute_qp_objective (zeroConf m)).1 m.nv m.nv ∧
    ((left_hip_pmin r).compute_qp_objective (zeroConf m)).2.length = m.nv ∧
    matShape ((left_hip_pmin r).compute_qp_inequality (zeroConf m) (1/1000)).1
      (left_hip_pmin r).dim m.nv ∧
    ((left_hip_pmin r).compute_qp_inequality (zeroConf m) (1/1000)).2.length =
      (left_hip_pmin r).dim ∧
    ((left_hip_pmin r).compute_barrier (zeroConf m)).length = (left_hip_pmin r).dim ∧
    matShape ((left_hip_pmin r).compute_jacobian (zeroConf m)) (left_hip_pmin r).dim m.nv := by
  have hJ' : ∀ s ∈ (zeroConf m).model.frameJacobian (left_hip_pmin r).frame (zeroConf m).q,
      s.length = (zeroConf m).model.nv := hJ
  refine ⟨?_, ?_, ?_, ?_, ?_, ?_⟩
  · exact matShape_smulMat _ _ _ _ (matShape_idMat m.nv)
  · show (smulVec (-(left_hip_pmin r).r) ((left_hip_pmin r).compute_safe_policy (zeroConf m))).length = m.nv
    rw [length_smulVec, PositionBarrier.compute_safe_policy]
    exact length_matTVecMul _ _ _
  · exact matShape_smulMat _ _ _ _ (shape_compute_jacobian _ _ hJ')
  · show (smulVec (left_hip_pmin r).gain ((left_hip_pmin r).compute_barrier (zeroConf m))).length = _
    rw [length_smulVec]
    exact length_compute_barrier _ _
  · exact length_compute_barrier _ _
  · exact shape_compute_jacobian _ _ hJ'

/-- Witness for C1 at the concrete two-dof model. -/
theorem claim_C1_witness :
    (∀ s ∈ wModel.frameJacobian "left_hip" (zeroVec wModel.nq), s.length = wModel.nv) ∧
    (matShape ((left_hip_pmin 0).compute_qp_objective (zeroConf wModel)).1 wModel.nv wModel.nv ∧
     ((left_hip_pmin 0).compute_qp_objective (zeroConf wModel)).2.length = wModel.nv ∧
     matShape ((left_hip_pmin 0).compute_qp_inequality (zeroConf wModel) (1/1000)).1
       (left_hip_pmin 0).dim wModel.nv ∧
     ((left_hip_pmin 0).compute_qp_inequality (zeroConf wModel) (1/1000)).2.length =
       (left_hip_pmin 0).dim ∧
     ((left_hip_pmin 0).compute_barrier (zeroConf wModel)).length = (left_hip_pmin 0).dim ∧
     matShape ((left_hip_pmin 0).compute_jacobian (zeroConf wModel)) (left_hip_pmin 0).dim wModel.nv) :=
  ⟨by decide, claim_C1 wModel 0 (by decide)⟩

/-- C2: the barrier constructed with safety radius `r = 0` contributes an
all-zero QP objective matrix and vector on the zeroed configuration. -/
theorem claim_C2 (m : RobotModel) :
    isZeroMat ((left_hip_pmin 0).compute_qp_objective (zeroConf m)).1 ∧
    isZeroVec ((left_hip_pmin 0).compute_qp_objective (zeroConf m)).2 := by
  constructor
  · intro row hrow
    simp only [PositionBarrier.compute_qp_objective, smulMat, List.mem_map] at hrow
    obtain ⟨s, _, rfl⟩ := hrow
    intro x hx
    simp only [smulVec, List.mem_map] at hx
    obtain ⟨y, _, rfl⟩ := hx
    simp [left_hip_pmin]
  · intro x hx
    simp only [PositionBarrier.compute_qp_objective, smulVec, List.mem_map] at hx
    obtain ⟨y, _, rfl⟩ := hx
    simp [left_hip_pmin]

/-- C3: the barrier constructed with safety radius `r = 1` contributes a QP
objective matrix that is not all-zero (on any model with at least one
velocity degree of freedom), and whenever its safe-policy output is nonzero
in some component the objective vector is also not all-zero. -/
theorem claim_C3 (m : RobotModel) (hnv : 0 < m.nv) :
    ¬ isZeroMat ((left_hip_pmin 1).compute_qp_objective (zeroConf m)).1 ∧
    (¬ isZeroVec ((left_hip_pmin 1).compute_safe_policy (zeroConf m)) →
      ¬ isZeroVec ((left_hip_pmin 1).compute_qp_objective (zeroConf m)).2) := by
  constructor
  · intro h
    have h0 : (0 : Nat) ∈ List.range m.nv := List.mem_range.mpr hnv
    have hrow : smulVec (left_hip_pmin 1).r
        ((List.range m.nv).map (fun j => if 0 = j then (1 : ℚ) else 0)) ∈
        ((left_hip_pmin 1).compute_qp_objective (zeroConf m)).1 := by
      simp only [PositionBarrier.compute_qp_objective, smulMat, idMat]
      exact List.mem_map.mpr ⟨_, List.mem_map.mpr ⟨0, h0, rfl⟩, rfl⟩
    have hx : (left_hip_pmin 1).r * (if (0 : Nat) = 0 then (1 : ℚ) else 0) ∈
        smulVec (left_hip_pmin 1).r
          ((List.range m.nv).map (fun j => if 0 = j then (1 : ℚ) else 0)) := by
      simp only [smulVec]
      exact List.mem_map.mpr ⟨_, List.mem_map.mpr ⟨0, h0, rfl⟩, rfl⟩
    have hzero := h _ hrow _ hx
    simp [left_hip_pmin] at hzero
  · intro hnp hcz
    apply hnp
    intro x hx
    have hmem : -(left_hip_pmin 1).r * x ∈
        ((left_hip_pmin 1).compute_qp_objective (zeroConf m)).2 := by
      simp only [PositionBarrier.compute_qp_objective, smulVec]
      exact List.mem_map.mpr ⟨x, hx, rfl⟩
    have h0 := hcz _ hmem
    have hr : (left_hip_pmin 1).r = 1 := rfl
    rw [hr] at h0
    linarith

/-- Witness for C3 at the concrete two-dof model. -/
theorem claim_C3_witness :
    0 < wModel.nv ∧
    (¬ isZeroMat ((left_hip_pmin 1).compute_qp_objective (zeroConf wModel)).1 ∧
     (¬ isZeroVec ((left_hip_pmin 1).compute_safe_policy (zeroConf wModel)) →
       ¬ isZeroVec ((left_hip_pmin 1).compute_qp_objective (zeroConf wModel)).2)) :=
  ⟨by decide, claim_C3 wModel (by decide)⟩

/-- C4: the textual representation of every constructed `PositionBarrier`
contains the literal substrings `gain=`, `safety_policy=` and `r=`, and
contains the barrier's gain, safety-policy and radius values as
substrings. -/
theorem claim_C4 (b : PositionBarrier) :
    strHasSub "gain=".data b.reprData = true ∧
    strHasSub "safety_policy=".data b.reprData = true ∧
    strHasSub "r=".data b.reprData = true ∧
    strHasSub (toString b.gain).data b.reprData = true ∧
    strHasSub b.safety_policy.data b.reprData = true ∧
    strHasSub (toString b.r).data b.reprData = true := by
  refine ⟨?_, ?_, ?_, ?_, ?_, ?_⟩
  · exact strHasSub_of_eq _ _
      ("PositionBarrier(frame=".data ++ b.frame.data ++ ", ".data)
      ((toString b.gain).data ++ ", ".data ++ "safety_policy=".data ++ b.safety_policy.data
        ++ ", ".data ++ "r=".data ++ (toString b.r).data ++ ")".data)
      (by simp [PositionBarrier.reprData, List.append_assoc])
  · exact strHasSub_of_eq _ _
      ("PositionBarrier(frame=".data ++ b.frame.data ++ ", ".data ++ "gain=".data
        ++ (toString b.gain).data ++ ", ".data)
      (b.safety_policy.data ++ ", ".data ++ "r=".data ++ (toString b.r).data ++ ")".data)
      (by simp [PositionBarrier.reprData, List.append_assoc])
  · exact strHasSub_of_eq _ _
      ("PositionBarrier(frame=".data ++ b.frame.data ++ ", ".data ++ "gain=".data
        ++ (toString b.gain).data ++ ", ".data ++ "safety_policy=".data
        ++ b.safety_policy.data ++ ", ".data)
      ((toString b.r).data ++ ")".data)
      (by simp [PositionBarrier.reprData, List.append_assoc])
  · exact strHasSub_of_eq _ _
      ("PositionBarrier(frame=".data ++ b.frame.data ++ ", ".data ++ "gain=".data)
      (", ".data ++ "safety_policy=".data ++ b.safety_policy.data ++ ", ".data
        ++ "r=".data ++ (toString b.r).data ++ ")".data)
      (by simp [PositionBarrier.reprData, List.append_assoc])
  · exact strHasSub_of_eq _ _
      ("PositionBarrier(frame=".data ++ b.frame.data ++ ", ".data ++ "gain=".data
        ++ (toString b.gain).data ++ ", ".data ++ "safety_policy=".data)
      (", ".data ++ "r=".data ++ (toString b.r).data ++ ")".data)
      (by simp [PositionBarrier.reprData, List.append_assoc])
  · exact strHasSub_of_eq _ _
      ("PositionBarrier(frame=".data ++ b.frame.data ++ ", ".data ++ "gain=".data
        ++ (toString b.gain).data ++ ", ".data ++ "safety_policy=".data
        ++ b.safety_policy.data ++ ", ".data ++ "r=".data)
      (")".data)
      (by simp [PositionBarrier.reprData, List.append_assoc])

/-! ## Demo-loop lemmas and claims -/

lemma length_updatedTarget (env : DemoEnv) (s : LoopState) :
    (updatedTarget env s).length = s.target.length := by
  simp [updatedTarget]

lemma runDemo_target_length (env : DemoEnv) (solver : String) (dt : ℚ) (s0 : LoopState) :
    ∀ n, (runDemo env solver dt s0 n).target.length = s0.target.length
  | 0 => rfl
  | n + 1 => by
      simp only [runDemo, loopBody]
      rw [length_updatedTarget]
      exact runDemo_target_length env solver dt s0 n

/-- Opaque environment used to witness the demo-loop claims. -/
def wEnv : DemoEnv :=
  { solve_ik := fun _ _ _ _ _ _ => [],
    integrate := fun q _ _ => q,
    sin := fun _ => 0 }

/-- Start state used to witness the demo-loop claims. -/
def wS0 : LoopState :=
  { target := [0, 0, 0], q := [], t := 0 }

/-- C5: in every iteration, the velocity command is obtained by calling
`solve_ik` with the current configuration, the list of two tasks, the
timestep `dt` and the list of two barrier constraints (with
`use_position_limit=False`), and the configuration is advanced by
integrating exactly that velocity over `dt` before the display and sleep
actions of the same iteration. -/
theorem claim_C5 (env : DemoEnv) (solver : String) (dt : ℚ) (s0 : LoopState) (n : Nat) :
    (tasksWith (updatedTarget env (runDemo env solver dt s0 n))).length = 2 ∧
    cbf_list.length = 2 ∧
    (runDemo env solver dt s0 (n + 1)).q =
      env.integrate (runDemo env solver dt s0 n).q
        (env.solve_ik (runDemo env solver dt s0 n).q
          (tasksWith (updatedTarget env (runDemo env solver dt s0 n)))
          dt solver cbf_list false) dt ∧
    traceAt env solver dt s0 n =
      [DemoEvent.setTargetTransform (updatedTarget env (runDemo env solver dt s0 n)),
       DemoEvent.setFrameTransform,
       DemoEvent.solveIkCall (runDemo env solver dt s0 n).q
         (tasksWith (updatedTarget env (runDemo env solver dt s0 n)))
         dt solver cbf_list false,
       DemoEvent.integrateCall
         (env.solve_ik (runDemo env solver dt s0 n).q
           (tasksWith (updatedTarget env (runDemo env solver dt s0 n)))
           dt solver cbf_list false) dt,
       DemoEvent.display
         (env.integrate (runDemo env solver dt s0 n).q
           (env.solve_ik (runDemo env solver dt s0 n).q
             (tasksWith (updatedTarget env (runDemo env solver dt s0 n)))
             dt solver cbf_list false) dt),
       DemoEvent.sleep] :=
  ⟨rfl, rfl, rfl, rfl⟩

/-- C6: in every iteration the target translation is recomputed as a
closed-form function of the elapsed time: component 1 becomes
`0.7 * sin(t / 2)` and component 2 becomes the fixed offset `0.2`, and the
`solve_ik` call of the same iteration already receives the task list built
on that updated target. -/
theorem claim_C6 (env : DemoEnv) (solver : String) (dt : ℚ) (s0 : LoopState) (n : Nat)
    (h : s0.target.length = 3) :
    (updatedTarget env (runDemo env solver dt s0 n)).getD 1 0 =
      (7/10) * env.sin ((runDemo env solver dt s0 n).t / 2) ∧
    (updatedTarget env (runDemo env solver dt s0 n)).getD 2 0 = 2/10 ∧
    traceAt env solver dt s0 n =
      DemoEvent.setTargetTransform (updatedTarget env (runDemo env solver dt s0 n)) ::
      DemoEvent.setFrameTransform ::
      DemoEvent.solveIkCall (runDemo env solver dt s0 n).q
        (tasksWith (updatedTarget env (runDemo env solver dt s0 n)))
        dt solver cbf_list false ::
      (traceAt env solver dt s0 n).drop 3 := by
  have hlen : (runDemo env solver dt s0 n).target.length = 3 := by
    rw [runDemo_target_length]
    exact h
  obtain ⟨x0, x1, x2, hv⟩ := List.length_eq_three.mp hlen
  refine ⟨?_, ?_, rfl⟩
  · rw [updatedTarget, hv]
    simp [List.set, List.getD]
  · rw [updatedTarget, hv]
    simp [List.set, List.getD]

/-- Witness for C6 at the concrete environment and start state. -/
theorem claim_C6_witness :
    wS0.target.length = 3 ∧
    ((updatedTarget wEnv (runDemo wEnv "osqp" (1/1000) wS0 0)).getD 1 0 =
       (7/10) * wEnv.sin ((runDemo wEnv "osqp" (1/1000) wS0 0).t / 2) ∧
     (updatedTarget wEnv (runDemo wEnv "osqp" (1/1000) wS0 0)).getD 2 0 = 2/10 ∧
     traceAt wEnv "osqp" (1/1000) wS0 0 =
       DemoEvent.setTargetTransform (updatedTarget wEnv (runDemo wEnv "osqp" (1/1000) wS0 0)) ::
       DemoEvent.setFrameTransform ::
       DemoEvent.solveIkCall (runDemo wEnv "osqp" (1/1000) wS0 0).q
         (tasksWith (updatedTarget wEnv (runDemo wEnv "osqp" (1/1000) wS0 0)))
         (1/1000) "osqp" cbf_list false ::
       (traceAt wEnv "osqp" (1/1000) wS0 0).drop 3) :=
  ⟨by decide, claim_C6 wEnv "osqp" (1/1000) wS0 0 (by decide)⟩

/-- C7: when the import of the robot-description loader raises a
`ModuleNotFoundError`, the script re-raises a `ModuleNotFoundError` whose
message contains the corrective installation hint, chained from the original
exception. -/
theorem claim_C7 (e : PyError) (h : e.kind = "ModuleNotFoundError") :
    ∃ c : RaisedError, importGuard (Except.error e) = Except.error c ∧
      c.error.kind = "ModuleNotFoundError" ∧
      strHasSub "pip install robot_descriptions".data c.error.message.data = true ∧
      c.cause = some e := by
  refine ⟨⟨⟨"ModuleNotFoundError", importHintMessage⟩, some e⟩, ?_, rfl, ?_, rfl⟩
  · simp [importGuard, h]
  · show strHasSub "pip install robot_descriptions".data importHintMessage.data = true
    decide

/-- Witness for C7 at a concrete original exception. -/
theorem claim_C7_witness :
    (PyError.mk "ModuleNotFoundError" "No module named robot_descriptions").kind =
      "ModuleNotFoundError" ∧
    (∃ c : RaisedError,
      importGuard (Except.error
        (PyError.mk "ModuleNotFoundError" "No module named robot_descriptions")) =
        Except.error c ∧
      c.error.kind = "ModuleNotFoundError" ∧
      strHasSub "pip install robot_descriptions".data c.error.message.data = true ∧
      c.cause = some (PyError.mk "ModuleNotFoundError" "No module named robot_descriptions")) :=
  ⟨rfl, claim_C7 _ rfl⟩

/-- C8: the demo loop never terminates: after any number of completed
iterations the loop takes a further full iteration (the body is total and
unconditional, with all six actions performed). -/
theorem claim_C8 (env : DemoEnv) (solver : String) (dt : ℚ) (s0 : LoopState) (n : Nat) :
    runDemo env solver dt s0 (n + 1) =
      (loopBody env solver dt (runDemo env solver dt s0 n)).1 ∧
    (traceAt env solver dt s0 n).length = 6 :=
  ⟨rfl, rfl⟩

/-- C9: the QP solver backend is selected deterministically before the loop:
it is `osqp` exactly when `osqp` is among the available solvers, otherwise
the first available solver; and the selected identifier is the one passed to
the (single) `solve_ik` call of every iteration. -/
theorem claim_C9 (available : List String) (h : available ≠ []) :
    (selectSolver available = some "osqp" ↔ "osqp" ∈ available) ∧
    ("osqp" ∉ available → selectSolver available = available.head?) ∧
    (∀ sv, selectSolver available = some sv →
      ∀ (env : DemoEnv) (dt : ℚ) (s0 : LoopState) (n : Nat),
        solversOfCalls (traceAt env sv dt s0 n) = [sv]) := by
  obtain ⟨a, rest, rfl⟩ := List.exists_cons_of_ne_nil h
  refine ⟨?_, ?_, ?_⟩
  · constructor
    · intro hsel
      by_cases hm : "osqp" ∈ a :: rest
      · exact hm
      · simp only [selectSolver, List.head?, hm, if_neg hm, Option.some.injEq] at hsel
        rw [← hsel]
        exact List.mem_cons_self a rest
    · intro hm
      simp [selectSolver, hm]
  · intro hm
    simp [selectSolver, hm]
  · intro sv _ env dt s0 n
    rfl

/-- Witness for C9 at a concrete availability list. -/
theorem claim_C9_witness :
    (["quadprog", "osqp"] : List String) ≠ [] ∧
    ((selectSolver ["quadprog", "osqp"] = some "osqp" ↔
        "osqp" ∈ (["quadprog", "osqp"] : List String)) ∧
     ("osqp" ∉ (["quadprog", "osqp"] : List String) →
        selectSolver ["quadprog", "osqp"] = (["quadprog", "osqp"] : List String).head?) ∧
     (∀ sv, selectSolver ["quadprog", "osqp"] = some sv →
       ∀ (env : DemoEnv) (dt : ℚ) (s0 : LoopState) (n : Nat),
         solversOfCalls (traceAt env sv dt s0 n) = [sv])) :=
  ⟨by decide, claim_C9 ["quadprog", "osqp"] (by decide)⟩

/-- C10: every `solve_ik` call of every iteration passes
`use_position_limit=False` and the fixed constraint list, which contains the
configuration barrier; joint-configuration safety therefore rests on the
barrier list, never on the solver's built-in position limit. -/
theorem claim_C10 (env : DemoEnv) (solver : String) (dt : ℚ) (s0 : LoopState) (n : Nat) :
    limitFlagsOfCalls (traceAt env solver dt s0 n) = [false] ∧
    cbfsOfCalls (traceAt env solver dt s0 n) = [cbf_list] ∧
    configuration_cbf ∈ cbf_list := by
  refine ⟨rfl, rfl, ?_⟩
  simp [cbf_list]

end Pink
